import Mathlib

/-!
Verification of the SETTINGS test group (sections 6.5 and 6.5.2) of the h2spec
conformance harness. The definitions below are a shallow embedding of the Go
source file 6_5.go: the frame read loop of the valid exchange case is embedded
as a function over a finite trace of ReadFrame outcomes, and each hand crafted
case is embedded as the byte strings it writes together with the error codes it
passes to the shared verification helper.
-/

namespace H2spec

/-- Frame type SETTINGS: the constant http2.FrameSettings (0x4) of the frame codec. -/
def FrameSettings : Nat := 0x4

/-- The SETTINGS ACK flag: the constant http2.FlagSettingsAck (0x1) of the frame codec. -/
def FlagSettingsAck : Nat := 0x1

/-- The error code PROTOCOL_ERROR: http2.ErrCodeProtocol (0x1). -/
def ErrCodeProtocol : Nat := 0x1

/-- The error code FLOW_CONTROL_ERROR: http2.ErrCodeFlowControl (0x3). -/
def ErrCodeFlowControl : Nat := 0x3

/-- The error code FRAME_SIZE_ERROR: http2.ErrCodeFrameSize (0x6). -/
def ErrCodeFrameSize : Nat := 0x6

/-- Modelled from the spec: the constant FlagDefault of the harness core (which is
outside the given source file), the wildcard flag value recorded for frames whose
flags a case does not constrain. Its concrete numeric value is never load bearing
in the theorems below. -/
def FlagDefault : Nat := 0x0

/-- Modelled from the spec: the constant ErrCodeDefault of the harness core (which
is outside the given source file), the wildcard error code recorded for frame
observations that carry no error code. Its concrete numeric value is never load
bearing in the theorems below. -/
def ErrCodeDefault : Nat := 0xff

/-- The errno syscall.ECONNRESET (Linux value 104). -/
def ECONNRESET : Nat := 104

/-- A decoded frame as the read loop inspects it: header type and header flags.
In the frame codec a decoded frame whose header type is 0x4 is a SettingsFrame. -/
structure Frame where
  ftype : Nat
  flags : Nat
deriving DecidableEq

/-- The Go error values distinguished by the read loop: io.EOF, the TIMEOUT
sentinel returned by ReadFrame when the deadline elapses, a net.OpError wrapping
a syscall errno, and any other error value (tagged). -/
inductive GoError where
  | eof : GoError
  | timeoutErr : GoError
  | opError : Nat → GoError
  | other : Nat → GoError
deriving DecidableEq

/-- One outcome of http2Conn.ReadFrame: a decoded frame or an error. -/
inductive ReadEvent where
  | frame : Frame → ReadEvent
  | ioErr : GoError → ReadEvent
deriving DecidableEq

/-- The Result variants of the harness: ResultFrame with frame type, flags and
error code, ResultConnectionClose, ResultTestTimeout, and ResultError carrying
the underlying error. -/
inductive Result where
  | frame : Nat → Nat → Nat → Result
  | connectionClose : Result
  | testTimeout : Result
  | error : GoError → Result
deriving DecidableEq

/-- The error branch of the read loop of the case Sends a SETTINGS frame:
io.EOF, and a net.OpError whose wrapped errno is syscall.ECONNRESET, give
ResultConnectionClose; the TIMEOUT sentinel sets ResultTestTimeout only when the
actual variable is still nil and otherwise keeps it; every other error gives
ResultError carrying the error. -/
def classifyErr (e : GoError) (actual : Option Result) : Result :=
  match e with
  | GoError.eof => Result.connectionClose
  | GoError.opError errno =>
      if errno = ECONNRESET then Result.connectionClose
      else Result.error (GoError.opError errno)
  | GoError.timeoutErr => actual.getD Result.testTimeout
  | GoError.other tag => Result.error (GoError.other tag)

/-- The frame read loop of the case Sends a SETTINGS frame, run on a finite trace
of ReadFrame outcomes while threading the Go variable actual (None models the nil
pointer). The outer Option is none when the trace ends before any branch breaks
the loop, and some res when the loop breaks with actual equal to res. A settings
frame records its own type and flags and breaks the loop exactly when its ACK
flag is set; any other frame records its type with FlagDefault and the loop
continues; any ReadFrame error breaks the loop through classifyErr. -/
def settingsLoop : List ReadEvent → Option Result → Option (Option Result)
  | [], _ => none
  | ReadEvent.ioErr e :: _, actual => some (some (classifyErr e actual))
  | ReadEvent.frame f :: rest, _ =>
      if f.ftype = FrameSettings then
        if f.flags &&& FlagSettingsAck = FlagSettingsAck then
          some (some (Result.frame f.ftype f.flags ErrCodeDefault))
        else
          settingsLoop rest (some (Result.frame f.ftype f.flags ErrCodeDefault))
      else
        settingsLoop rest (some (Result.frame f.ftype FlagDefault ErrCodeDefault))

/-- The frame observation the read loop records for a frame that does not break
it: a settings frame records its own flags, any other frame records FlagDefault. -/
def record (f : Frame) : Result :=
  if f.ftype = FrameSettings then Result.frame f.ftype f.flags ErrCodeDefault
  else Result.frame f.ftype FlagDefault ErrCodeDefault

/-- A frame that does not break the read loop: not a settings frame with the ACK
flag set. -/
def nonDecisive (f : Frame) : Prop :=
  ¬(f.ftype = FrameSettings ∧ f.flags &&& FlagSettingsAck = FlagSettingsAck)

instance (f : Frame) : Decidable (nonDecisive f) := by
  unfold nonDecisive
  infer_instance

/-- The expected list declared by the case Sends a SETTINGS frame. -/
def sendSettingsExpected : List Result :=
  [Result.frame FrameSettings FlagSettingsAck ErrCodeDefault]

/-- The single expected observation of the case Sends a SETTINGS frame: a frame
of type SETTINGS whose flags are the ACK flag, with the default error code. -/
def expectedSettingsAck : Result :=
  Result.frame FrameSettings FlagSettingsAck ErrCodeDefault

/-- The settings parameter written by the case Sends a SETTINGS frame:
http2.SettingMaxConcurrentStreams (0x3) with value 100. -/
def sendSettingsWrittenSetting : Nat × Nat := (0x3, 100)

/-- The behavior function of the case Sends a SETTINGS frame, as a function of
the trace of ReadFrame outcomes: the pair of the expected list and the loop
outcome. -/
def sendSettingsBehavior (trace : List ReadEvent) : List Result × Option (Option Result) :=
  (sendSettingsExpected, settingsLoop trace none)

/-- A hand crafted test case: its name, the byte strings its behavior function
writes to the raw connection in order, and the acceptable error codes it passes
to the verification helper TestConnectionError. -/
structure RawCase where
  name : String
  writes : List (List Nat)
  actualCodes : List Nat

/-- Case 6.5: Sends a SETTINGS frame that is not a zero-length with ACK flag. -/
def caseNonZeroLengthAck : RawCase :=
  { name := "Sends a SETTINGS frame that is not a zero-length with ACK flag",
    writes := [[0x00, 0x00, 0x01, 0x04, 0x01, 0x00, 0x00, 0x00, 0x00, 0x00]],
    actualCodes := [ErrCodeFrameSize] }

/-- Case 6.5: Sends a SETTINGS frame with the stream identifier that is not 0x0. -/
def caseNonZeroStreamId : RawCase :=
  { name := "Sends a SETTINGS frame with the stream identifier that is not 0x0",
    writes := [[0x00, 0x00, 0x06, 0x04, 0x00, 0x00, 0x00, 0x00, 0x03],
               [0x00, 0x03, 0x00, 0x00, 0x00, 0x64]],
    actualCodes := [ErrCodeProtocol] }

/-- Case 6.5: Sends a SETTINGS frame with a length other than a multiple of 6
octets. -/
def caseLengthNotMultipleOf6 : RawCase :=
  { name := "Sends a SETTINGS frame with a length other than a multiple of 6 octets",
    writes := [[0x00, 0x00, 0x02, 0x04, 0x00, 0x00, 0x00, 0x00, 0x00],
               [0x00, 0x00, 0x01]],
    actualCodes := [ErrCodeFrameSize] }

/-- Case 6.5.2: SETTINGS_ENABLE_PUSH (0x2): Sends the value other than 0 or 1. -/
def caseEnablePushInvalid : RawCase :=
  { name := "SETTINGS_ENABLE_PUSH (0x2): Sends the value other than 0 or 1",
    writes := [[0x00, 0x00, 0x06, 0x04, 0x00, 0x00, 0x00, 0x00, 0x00],
               [0x00, 0x02, 0x00, 0x00, 0x00, 0x02]],
    actualCodes := [ErrCodeProtocol] }

/-- Case 6.5.2: SETTINGS_INITIAL_WINDOW_SIZE (0x4): Sends the value above the
maximum flow control window size. -/
def caseInitialWindowSizeAboveMax : RawCase :=
  { name := "SETTINGS_INITIAL_WINDOW_SIZE (0x4): Sends the value above the maximum flow control window size",
    writes := [[0x00, 0x00, 0x06, 0x04, 0x00, 0x00, 0x00, 0x00, 0x00],
               [0x00, 0x04, 0x80, 0x00, 0x00, 0x00]],
    actualCodes := [ErrCodeFlowControl] }

/-- Case 6.5.2: SETTINGS_MAX_FRAME_SIZE (0x5): Sends the value below the initial
value. -/
def caseMaxFrameSizeBelowInitial : RawCase :=
  { name := "SETTINGS_MAX_FRAME_SIZE (0x5): Sends the value below the initial value",
    writes := [[0x00, 0x00, 0x06, 0x04, 0x00, 0x00, 0x00, 0x00, 0x00],
               [0x00, 0x05, 0x00, 0x00, 0x3f, 0xff]],
    actualCodes := [ErrCodeProtocol] }

/-- Case 6.5.2: SETTINGS_MAX_FRAME_SIZE (0x5): Sends the value above the maximum
allowed frame size. -/
def caseMaxFrameSizeAboveMax : RawCase :=
  { name := "SETTINGS_MAX_FRAME_SIZE (0x5): Sends the value above the maximum allowed frame size",
    writes := [[0x00, 0x00, 0x06, 0x04, 0x00, 0x00, 0x00, 0x00, 0x00],
               [0x00, 0x05, 0x01, 0x00, 0x00, 0x00]],
    actualCodes := [ErrCodeProtocol] }

/-- The hand crafted cases of TestGroup 6.5 SETTINGS in declaration order. The
first case of the group, Sends a SETTINGS frame, is the loop based case embedded
by sendSettingsBehavior. -/
def settingsTestGroupRawCases : List RawCase :=
  [caseNonZeroLengthAck, caseNonZeroStreamId, caseLengthNotMultipleOf6]

/-- The cases of TestGroup 6.5.2 Defined SETTINGS Parameters in declaration
order. -/
def definedSettingsParametersRawCases : List RawCase :=
  [caseEnablePushInvalid, caseInitialWindowSizeAboveMax,
   caseMaxFrameSizeBelowInitial, caseMaxFrameSizeAboveMax]

/-- The octets a hand crafted case writes to the raw connection, in order. -/
def caseBytes (c : RawCase) : List Nat := c.writes.flatten

/-- The first 9 octets a hand crafted case writes: the frame header. -/
def caseHeader (c : RawCase) : List Nat := (caseBytes c).take 9

/-- The octets a hand crafted case writes after the 9 octet frame header. -/
def casePayload (c : RawCase) : List Nat := (caseBytes c).drop 9

/-- A decoded 9 octet frame header: 24 bit big endian length, 8 bit type, 8 bit
flags, one reserved bit and a 31 bit big endian stream identifier. -/
structure FrameHeader where
  length : Nat
  ftype : Nat
  flags : Nat
  streamId : Nat
deriving DecidableEq

/-- Decode a 9 octet frame header per the wire byte layout: 24 bit big endian
length, 8 bit type, 8 bit flags, 1 reserved bit plus 31 bit big endian stream
identifier. -/
def parseFrameHeader : List Nat → Option FrameHeader
  | [l0, l1, l2, t, fl, s0, s1, s2, s3] =>
      some { length := l0 * 65536 + l1 * 256 + l2,
             ftype := t,
             flags := fl,
             streamId := (s0 % 128) * 16777216 + s1 * 65536 + s2 * 256 + s3 }
  | _ => none

/-- Decode a settings body as repeated pairs of a 16 bit big endian parameter
identifier and a 32 bit big endian parameter value, each pair exactly 6 octets. -/
def parseSettingsBody : List Nat → Option (List (Nat × Nat))
  | [] => some []
  | i0 :: i1 :: v0 :: v1 :: v2 :: v3 :: rest =>
      (parseSettingsBody rest).map fun ps =>
        (i0 * 256 + i1, v0 * 16777216 + v1 * 65536 + v2 * 256 + v3) :: ps
  | _ => none

/-! Helper lemmas about the read loop. -/

theorem settingsLoop_step (f : Frame) (rest : List ReadEvent) (acc : Option Result)
    (h : nonDecisive f) :
    settingsLoop (ReadEvent.frame f :: rest) acc = settingsLoop rest (some (record f)) := by
  by_cases hs : f.ftype = FrameSettings
  · have hna : ¬ f.flags &&& FlagSettingsAck = FlagSettingsAck := fun hb => h ⟨hs, hb⟩
    simp [settingsLoop, record, hs, hna]
  · simp [settingsLoop, record, hs]

theorem settingsLoop_skip : ∀ (pre : List Frame) (tr : List ReadEvent) (acc : Option Result),
    (∀ f ∈ pre, nonDecisive f) →
    settingsLoop (pre.map ReadEvent.frame ++ tr) acc =
      settingsLoop tr (pre.foldl (fun _ f => some (record f)) acc)
  | [], _, _, _ => rfl
  | f :: fs, tr, acc, h => by
      rw [List.map_cons, List.cons_append,
        settingsLoop_step f (fs.map ReadEvent.frame ++ tr) acc (h f (List.mem_cons_self f fs)),
        settingsLoop_skip fs tr (some (record f)) (fun g hg => h g (List.mem_cons_of_mem f hg))]
      rfl

theorem record_ne_expected (f : Frame) (h : nonDecisive f) :
    record f ≠ expectedSettingsAck := by
  unfold record expectedSettingsAck
  by_cases hs : f.ftype = FrameSettings
  · have hna : ¬ f.flags &&& FlagSettingsAck = FlagSettingsAck := fun hb => h ⟨hs, hb⟩
    rw [if_pos hs]
    intro heq
    injection heq with h1 h2 h3
    exact hna (by rw [h2]; decide)
  · rw [if_neg hs]
    intro heq
    injection heq with h1 h2 h3
    exact hs h1

theorem classifyErr_ne_expected (e : GoError) (acc : Option Result)
    (hacc : ∀ r, acc = some r → r ≠ expectedSettingsAck) :
    classifyErr e acc ≠ expectedSettingsAck := by
  cases e with
  | eof => simp [classifyErr, expectedSettingsAck]
  | timeoutErr =>
      cases acc with
      | none => simp [classifyErr, expectedSettingsAck]
      | some r => simpa [classifyErr] using hacc r rfl
  | opError n =>
      by_cases hn : n = ECONNRESET <;> simp [classifyErr, hn, expectedSettingsAck]
  | other t => simp [classifyErr, expectedSettingsAck]

theorem settingsLoop_pass_sound (tr : List ReadEvent) : ∀ (acc : Option Result),
    (∀ r, acc = some r → r ≠ expectedSettingsAck) →
    settingsLoop tr acc = some (some expectedSettingsAck) →
    ∃ (pre : List Frame) (f : Frame) (rest : List ReadEvent),
      tr = pre.map ReadEvent.frame ++ ReadEvent.frame f :: rest ∧
      (∀ g ∈ pre, nonDecisive g) ∧ f.ftype = FrameSettings ∧ f.flags = FlagSettingsAck := by
  induction tr with
  | nil => intro acc _ h; simp [settingsLoop] at h
  | cons ev rest ih =>
      intro acc hacc h
      cases ev with
      | ioErr e =>
          exfalso
          apply classifyErr_ne_expected e acc hacc
          simpa [settingsLoop] using h
      | frame f =>
          by_cases hnd : nonDecisive f
          · rw [settingsLoop_step f rest acc hnd] at h
            obtain ⟨pre, g, rest2, htr, hpre, hgs, hgf⟩ :=
              ih (some (record f))
                (fun r hr => by
                  injection hr with hr2
                  exact hr2 ▸ record_ne_expected f hnd) h
            refine ⟨f :: pre, g, rest2, ?_, ?_, hgs, hgf⟩
            · rw [List.map_cons, List.cons_append, htr]
            · intro x hx
              rcases List.mem_cons.mp hx with h1 | h2
              · exact h1 ▸ hnd
              · exact hpre x h2
          · have hd : f.ftype = FrameSettings ∧ f.flags &&& FlagSettingsAck = FlagSettingsAck :=
              not_not.mp hnd
            have heq : Result.frame f.ftype f.flags ErrCodeDefault = expectedSettingsAck := by
              rw [show settingsLoop (ReadEvent.frame f :: rest) acc =
                    some (some (Result.frame f.ftype f.flags ErrCodeDefault)) by
                  simp [settingsLoop, hd.1, hd.2]] at h
              injection h with h1
              injection h1
            refine ⟨[], f, rest, rfl, by simp, hd.1, ?_⟩
            unfold expectedSettingsAck at heq
            exact ((Result.frame.injEq _ _ _ _ _ _).mp heq).2.1

theorem settingsLoop_pass_complete (pre : List Frame) (f : Frame) (rest : List ReadEvent)
    (acc : Option Result) (hpre : ∀ g ∈ pre, nonDecisive g)
    (hs : f.ftype = FrameSettings) (hb : f.flags = FlagSettingsAck) :
    settingsLoop (pre.map ReadEvent.frame ++ ReadEvent.frame f :: rest) acc =
      some (some expectedSettingsAck) := by
  rw [settingsLoop_skip pre _ acc hpre]
  obtain ⟨ft, fl⟩ := f
  simp only at hs hb
  subst hs
  subst hb
  rfl

theorem settingsLoop_exit_some (tr : List ReadEvent) : ∀ (acc res : Option Result),
    settingsLoop tr acc = some res → ∃ r, res = some r := by
  induction tr with
  | nil => intro acc res h; simp [settingsLoop] at h
  | cons ev rest ih =>
      intro acc res h
      cases ev with
      | ioErr e =>
          refine ⟨classifyErr e acc, ?_⟩
          simp only [settingsLoop, Option.some.injEq] at h
          exact h.symm
      | frame f =>
          by_cases hs : f.ftype = FrameSettings
          · by_cases hb : f.flags &&& FlagSettingsAck = FlagSettingsAck
            · simp only [settingsLoop, hs, hb, if_true, if_pos, Option.some.injEq] at h
              exact ⟨_, h.symm⟩
            · rw [show settingsLoop (ReadEvent.frame f :: rest) acc =
                    settingsLoop rest (some (Result.frame f.ftype f.flags ErrCodeDefault)) by
                  simp [settingsLoop, hs, hb]] at h
              exact ih _ res h
          · rw [show settingsLoop (ReadEvent.frame f :: rest) acc =
                  settingsLoop rest (some (Result.frame f.ftype FlagDefault ErrCodeDefault)) by
                simp [settingsLoop, hs]] at h
            exact ih _ res h

theorem settingsLoop_terminates_on_err (tr : List ReadEvent) : ∀ (acc : Option Result),
    (∃ e, ReadEvent.ioErr e ∈ tr) → ∃ res, settingsLoop tr acc = some res := by
  induction tr with
  | nil => intro acc h; exact absurd h.choose_spec (by simp)
  | cons ev rest ih =>
      intro acc h
      cases ev with
      | ioErr e => exact ⟨some (classifyErr e acc), rfl⟩
      | frame f =>
          have hmem : ∃ e, ReadEvent.ioErr e ∈ rest := by
            obtain ⟨e, he⟩ := h
            rcases List.mem_cons.mp he with h1 | h2
            · exact absurd h1 (by simp)
            · exact ⟨e, h2⟩
          by_cases hs : f.ftype = FrameSettings
          · by_cases hb : f.flags &&& FlagSettingsAck = FlagSettingsAck
            · exact ⟨some (Result.frame f.ftype f.flags ErrCodeDefault), by
                simp [settingsLoop, hs, hb]⟩
            · rw [show settingsLoop (ReadEvent.frame f :: rest) acc =
                    settingsLoop rest (some (Result.frame f.ftype f.flags ErrCodeDefault)) by
                  simp [settingsLoop, hs, hb]]
              exact ih _ hmem
          · rw [show settingsLoop (ReadEvent.frame f :: rest) acc =
                  settingsLoop rest (some (Result.frame f.ftype FlagDefault ErrCodeDefault)) by
                simp [settingsLoop, hs]]
            exact ih _ hmem

/-! Claim theorems. -/

/-- Claim C1 counterexample: in the case Sends a SETTINGS frame, a frame of type
0x0 arrives and then ReadFrame returns TIMEOUT; the loop breaks returning the
recorded frame observation, which is not the Timeout variant, so a TIMEOUT from
ReadFrame does not always make the returned actual a ResultTestTimeout. -/
theorem sendSettings_timeout_not_always_timeout :
    settingsLoop [ReadEvent.frame ⟨0x0, 0x0⟩, ReadEvent.ioErr GoError.timeoutErr] none =
      some (some (Result.frame 0x0 FlagDefault ErrCodeDefault)) ∧
    Result.frame 0x0 FlagDefault ErrCodeDefault ≠ Result.testTimeout := by decide

/-- Claim C1 (amended): in the case Sends a SETTINGS frame, when ReadFrame
returns the TIMEOUT error the loop breaks at once; the returned actual is
ResultTestTimeout when no frame was received earlier in the loop, and otherwise
it is the observation recorded for the most recently received frame. -/
theorem sendSettings_timeout_result :
    (∀ rest, settingsLoop (ReadEvent.ioErr GoError.timeoutErr :: rest) none =
        some (some Result.testTimeout)) ∧
    (∀ (pre : List Frame) (f : Frame) (rest : List ReadEvent),
      (∀ g ∈ pre ++ [f], nonDecisive g) →
      settingsLoop ((pre ++ [f]).map ReadEvent.frame ++
          ReadEvent.ioErr GoError.timeoutErr :: rest) none =
        some (some (record f))) := by
  constructor
  · intro rest
    rfl
  · intro pre f rest h
    rw [settingsLoop_skip (pre ++ [f]) _ none h, List.foldl_append]
    rfl

/-- Witness for the amended claim C1 at a concrete input: one data frame is
received and then the deadline elapses, so the loop returns the recorded
observation of that frame. -/
theorem sendSettings_timeout_result_witness :
    settingsLoop [ReadEvent.frame ⟨0x0, 0x0⟩, ReadEvent.ioErr GoError.timeoutErr] none =
      some (some (record ⟨0x0, 0x0⟩)) :=
  sendSettings_timeout_result.2 [] ⟨0x0, 0x0⟩ [] (by decide)

/-- Claim C2 counterexample: a SETTINGS frame with flags 0x3 has the ACK flag set
and is decoded, the loop terminates on it, yet the returned actual is not in the
expected set of the case, so termination on an ACK flagged SETTINGS frame is not
always a pass. -/
theorem sendSettings_ack_not_always_pass :
    (Frame.mk FrameSettings 0x3).flags &&& FlagSettingsAck = FlagSettingsAck ∧
    settingsLoop [ReadEvent.frame ⟨FrameSettings, 0x3⟩] none =
      some (some (Result.frame FrameSettings 0x3 ErrCodeDefault)) ∧
    Result.frame FrameSettings 0x3 ErrCodeDefault ∉ sendSettingsExpected := by decide

/-- Claim C2 (amended): the case Sends a SETTINGS frame declares as its entire
expected set exactly the one Frame observation of type SETTINGS with flags equal
to the ACK flag and the default error code, and its read loop terminates with
that observation as actual exactly when, after only non decisive frames, a
SETTINGS frame whose flags equal exactly the ACK flag is decoded. -/
theorem sendSettings_pass_characterization :
    sendSettingsExpected = [expectedSettingsAck] ∧
    ∀ tr : List ReadEvent,
      settingsLoop tr none = some (some expectedSettingsAck) ↔
      ∃ (pre : List Frame) (f : Frame) (rest : List ReadEvent),
        tr = pre.map ReadEvent.frame ++ ReadEvent.frame f :: rest ∧
        (∀ g ∈ pre, nonDecisive g) ∧ f.ftype = FrameSettings ∧ f.flags = FlagSettingsAck := by
  refine ⟨rfl, fun tr => ⟨fun h => settingsLoop_pass_sound tr none (by simp) h, ?_⟩⟩
  rintro ⟨pre, f, rest, rfl, hpre, hs, hb⟩
  exact settingsLoop_pass_complete pre f rest none hpre hs hb

/-- Witness for the amended claim C2 at a concrete input: a trace consisting of
one SETTINGS frame with flags exactly the ACK flag makes the loop return the
expected observation. -/
theorem sendSettings_pass_characterization_witness :
    settingsLoop [ReadEvent.frame ⟨0x4, 0x1⟩] none = some (some expectedSettingsAck) :=
  (sendSettings_pass_characterization.2 [ReadEvent.frame ⟨0x4, 0x1⟩]).mpr
    ⟨[], ⟨0x4, 0x1⟩, [], rfl, by simp, rfl, rfl⟩

/-- Claim C3: the case Sends a SETTINGS frame that is not a zero-length with ACK
flag writes exactly the 9 header octets 00 00 01 04 01 00 00 00 00, which decode
to length 1, type SETTINGS, flags equal to the ACK flag and stream identifier 0,
followed by exactly one payload octet, and passes exactly the code
FRAME_SIZE_ERROR to the verification helper. -/
theorem caseNonZeroLengthAck_bytes :
    caseBytes caseNonZeroLengthAck =
      [0x00, 0x00, 0x01, 0x04, 0x01, 0x00, 0x00, 0x00, 0x00] ++ [0x00] ∧
    parseFrameHeader (caseHeader caseNonZeroLengthAck) =
      some ⟨0x1, FrameSettings, FlagSettingsAck, 0x0⟩ ∧
    (casePayload caseNonZeroLengthAck).length = 1 ∧
    caseNonZeroLengthAck.actualCodes = [ErrCodeFrameSize] := by decide

/-- Claim C4: the case Sends a SETTINGS frame with the stream identifier that is
not 0x0 writes exactly the header octets 00 00 06 04 00 00 00 00 03, which decode
to length 6, type SETTINGS, flags 0 and stream identifier 3, followed by the body
00 03 00 00 00 64, which decodes to the single parameter pair of identifier 0x3
and value 100, and passes exactly the code PROTOCOL_ERROR to the verification
helper. -/
theorem caseNonZeroStreamId_bytes :
    caseNonZeroStreamId.writes =
      [[0x00, 0x00, 0x06, 0x04, 0x00, 0x00, 0x00, 0x00, 0x03],
       [0x00, 0x03, 0x00, 0x00, 0x00, 0x64]] ∧
    parseFrameHeader (caseHeader caseNonZeroStreamId) =
      some ⟨0x6, FrameSettings, 0x0, 0x3⟩ ∧
    parseSettingsBody (casePayload caseNonZeroStreamId) = some [(0x3, 0x64)] ∧
    caseNonZeroStreamId.actualCodes = [ErrCodeProtocol] := by decide

/-- Claim C5, evaluated at its failing input: the case Sends a SETTINGS frame
with a length other than a multiple of 6 octets writes a header whose 24 bit
declared length is 2, while 3 payload octets follow it, so the declared length is
neither 3 nor equal to the number of payload octets written; the codes passed to
the verification helper are exactly FRAME_SIZE_ERROR. -/
theorem caseLengthNotMultipleOf6_bytes :
    parseFrameHeader (caseHeader caseLengthNotMultipleOf6) =
      some ⟨0x2, FrameSettings, 0x0, 0x0⟩ ∧
    (casePayload caseLengthNotMultipleOf6).length = 3 ∧
    (parseFrameHeader (caseHeader caseLengthNotMultipleOf6)).map FrameHeader.length ≠
      some (casePayload caseLengthNotMultipleOf6).length ∧
    (parseFrameHeader (caseHeader caseLengthNotMultipleOf6)).map FrameHeader.length ≠
      some 0x3 ∧
    caseLengthNotMultipleOf6.actualCodes = [ErrCodeFrameSize] := by decide

/-- Claim C6: the case SETTINGS_ENABLE_PUSH (0x2): Sends the value other than 0
or 1 writes exactly the header octets 00 00 06 04 00 00 00 00 00 followed by the
parameter pair octets 00 02 00 00 00 02, which decode to the single parameter of
identifier 0x2 and value 2, and passes exactly the code PROTOCOL_ERROR to the
verification helper. -/
theorem caseEnablePushInvalid_bytes :
    caseEnablePushInvalid.writes =
      [[0x00, 0x00, 0x06, 0x04, 0x00, 0x00, 0x00, 0x00, 0x00],
       [0x00, 0x02, 0x00, 0x00, 0x00, 0x02]] ∧
    parseFrameHeader (caseHeader caseEnablePushInvalid) =
      some ⟨0x6, FrameSettings, 0x0, 0x0⟩ ∧
    parseSettingsBody (casePayload caseEnablePushInvalid) = some [(0x2, 0x2)] ∧
    caseEnablePushInvalid.actualCodes = [ErrCodeProtocol] := by decide

/-- Claim C7: each of the three parameter limit cases of group 6.5.2 writes the
header octets 00 00 06 04 00 00 00 00 00 followed by exactly one 6 octet
parameter pair, and their code sets are FLOW_CONTROL_ERROR for parameter 0x4
with value 0x80000000, PROTOCOL_ERROR for parameter 0x5 with value 0x3fff, and
PROTOCOL_ERROR for parameter 0x5 with value 0x1000000. -/
theorem definedSettingsParameters_limit_cases :
    caseInitialWindowSizeAboveMax.writes =
      [[0x00, 0x00, 0x06, 0x04, 0x00, 0x00, 0x00, 0x00, 0x00],
       [0x00, 0x04, 0x80, 0x00, 0x00, 0x00]] ∧
    parseSettingsBody (casePayload caseInitialWindowSizeAboveMax) =
      some [(0x4, 0x80000000)] ∧
    caseInitialWindowSizeAboveMax.actualCodes = [ErrCodeFlowControl] ∧
    caseMaxFrameSizeBelowInitial.writes =
      [[0x00, 0x00, 0x06, 0x04, 0x00, 0x00, 0x00, 0x00, 0x00],
       [0x00, 0x05, 0x00, 0x00, 0x3f, 0xff]] ∧
    parseSettingsBody (casePayload caseMaxFrameSizeBelowInitial) =
      some [(0x5, 0x3fff)] ∧
    caseMaxFrameSizeBelowInitial.actualCodes = [ErrCodeProtocol] ∧
    caseMaxFrameSizeAboveMax.writes =
      [[0x00, 0x00, 0x06, 0x04, 0x00, 0x00, 0x00, 0x00, 0x00],
       [0x00, 0x05, 0x01, 0x00, 0x00, 0x00]] ∧
    parseSettingsBody (casePayload caseMaxFrameSizeAboveMax) =
      some [(0x5, 0x1000000)] ∧
    caseMaxFrameSizeAboveMax.actualCodes = [ErrCodeProtocol] := by decide

/-- Claim C8: in the read loop of the case Sends a SETTINGS frame, io.EOF and a
net.OpError wrapping syscall.ECONNRESET make the actual the Connection closed
variant, and any error other than EOF, the reset OpError and TIMEOUT makes the
actual the Transport error variant carrying that underlying error value. -/
theorem sendSettings_error_classification :
    (∀ rest, settingsLoop (ReadEvent.ioErr GoError.eof :: rest) none =
        some (some Result.connectionClose)) ∧
    (∀ rest, settingsLoop (ReadEvent.ioErr (GoError.opError ECONNRESET) :: rest) none =
        some (some Result.connectionClose)) ∧
    (∀ (e : GoError) (rest : List ReadEvent),
      e ≠ GoError.eof → e ≠ GoError.opError ECONNRESET → e ≠ GoError.timeoutErr →
      settingsLoop (ReadEvent.ioErr e :: rest) none = some (some (Result.error e))) := by
  refine ⟨fun rest => rfl, fun rest => rfl, ?_⟩
  intro e rest h1 h2 h3
  cases e with
  | eof => exact absurd rfl h1
  | timeoutErr => exact absurd rfl h3
  | other t => rfl
  | opError n =>
      have hn : n ≠ ECONNRESET := fun h => h2 (by rw [h])
      simp [settingsLoop, classifyErr, hn]

/-- Witness for claim C8 at a concrete input: an error that is neither EOF nor
the reset OpError nor TIMEOUT yields the Transport error variant carrying it. -/
theorem sendSettings_error_classification_witness :
    settingsLoop [ReadEvent.ioErr (GoError.other 0)] none =
      some (some (Result.error (GoError.other 0))) :=
  sendSettings_error_classification.2.2 (GoError.other 0) [] (by decide) (by decide) (by decide)

/-- Claim C9: whenever the read loop of the case Sends a SETTINGS frame breaks,
the actual it returns is a set Result value, never the nil value, and the loop
does break on any trace that contains a ReadFrame error outcome (in particular
the TIMEOUT produced when the deadline elapses). -/
theorem sendSettings_actual_total :
    (∀ (tr : List ReadEvent) (acc res : Option Result),
      settingsLoop tr acc = some res → ∃ r, res = some r) ∧
    (∀ tr : List ReadEvent, (∃ e, ReadEvent.ioErr e ∈ tr) →
      ∃ res, settingsLoop tr none = some res) :=
  ⟨fun tr acc res h => settingsLoop_exit_some tr acc res h,
   fun tr h => settingsLoop_terminates_on_err tr none h⟩

/-- Witness for claim C9 at a concrete input: a trace that ends with EOF makes
the loop break with a set result. -/
theorem sendSettings_actual_total_witness :
    ∃ res, settingsLoop [ReadEvent.ioErr GoError.eof] none = some res :=
  sendSettings_actual_total.2 [ReadEvent.ioErr GoError.eof] ⟨GoError.eof, by simp⟩

/-- Claim C10: in the case Sends a SETTINGS frame, a received frame that is not a
SETTINGS frame with the ACK flag set never breaks the read loop: the loop merely
records its observation and continues, and any number of such frames may precede
the terminal ReadFrame error event, after which the loop still breaks with the
classification of that error against the last recorded observation. -/
theorem sendSettings_frames_not_terminal :
    (∀ (f : Frame) (rest : List ReadEvent) (acc : Option Result), nonDecisive f →
      settingsLoop (ReadEvent.frame f :: rest) acc = settingsLoop rest (some (record f))) ∧
    (∀ (pre : List Frame) (e : GoError) (rest : List ReadEvent),
      (∀ g ∈ pre, nonDecisive g) →
      settingsLoop (pre.map ReadEvent.frame ++ ReadEvent.ioErr e :: rest) none =
        some (some (classifyErr e (pre.foldl (fun _ f => some (record f)) none)))) := by
  refine ⟨fun f rest acc h => settingsLoop_step f rest acc h, ?_⟩
  intro pre e rest h
  rw [settingsLoop_skip pre _ none h]
  rfl

/-- Witness for claim C10 at a concrete input: a data frame does not break the
loop; the loop state after it is the recorded observation of that frame. -/
theorem sendSettings_frames_not_terminal_witness :
    settingsLoop [ReadEvent.frame ⟨0x0, 0x0⟩] none =
      settingsLoop [] (some (record ⟨0x0, 0x0⟩)) :=
  sendSettings_frames_not_terminal.1 ⟨0x0, 0x0⟩ [] none (by decide)

end H2spec
